import Mathlib

/-!
# The scheduler of `src/Controller.cpp`

A shallow embedding of `Controller::Controller`, `Controller::createDOCP`,
`Controller::createTrajectory` and `Controller::controlLoop`.

* Vectors (`Eigen::VectorXd`) are lists of rationals: these functions only copy
  them and read single coefficients.
* `T_ROUTE` and `T_MPC` (declared in `Controller.h`) are taken as signed
  integers, as in `int nodes = ...`.
* An out-of-range index, a `find` that returns `end()` and a pointer cast to the
  wrong cost class are undefined behaviour in the source; here the enclosing
  function returns `none`.
* The encoders and the solver are inputs of `createTrajectory`.
* In the problem that `createDOCP` builds every running node points to the one
  `running_cost_model_sum` and every cost term points to one of the three cost
  objects.
* `Controller::controlLoop` (lines 266-455) is embedded as it is compiled. The
  only thing between its braces is one block comment, opened on line 268 and
  closed on line 454; there is no statement before, after or between. The text
  inside the comment is not part of the program and is not embedded.
-/

set_option linter.dupNamespace false

namespace DoublePendulumMPC

/-- An `Eigen::VectorXd`. -/
abbrev Vec := List ℚ

/-- Quantities read from the loaded model (`loadModel`): `state->zero()`,
`state->get_nv()` and `actuation_model->get_nu()`. -/
structure Model where
  zero : Vec
  nv : Nat
  nu : Nat
deriving DecidableEq, Repr

/-- The members set by `loadConfig` (lines 48-89) that the functions and the
statements below refer to. -/
structure Config where
  dt : ℚ
  x_reg_weight : ℚ
  u_reg_weight : ℚ
  trajectory_node_weight : ℚ
  trajectory_terminal_weight : ℚ
  running_model_goal_weight : ℚ
  terminal_model_goal_weight : ℚ
  T_ROUTE : Int
  T_MPC : Int
  control_loop_iterations : Int
deriving DecidableEq, Repr

/-! ## Vector accesses -/

/-- Read `v[i]` of an Eigen vector. -/
def coeff (v : Vec) (i : Nat) : Option ℚ := v[i]?

/-- Read `v[i]` of a `std::vector` with an `int` index. -/
def idx {α : Type} (v : List α) (i : Int) : Option α :=
  if 0 ≤ i then v[i.toNat]? else none

/-! ## The optimal-control problem built by `createDOCP` -/

/-- The keys under which `createDOCP` registers cost terms:
the string literals "x_goal", "x_reg" and "u_reg". -/
inductive CostName
  | x_goal
  | x_reg
  | u_reg
deriving DecidableEq, Repr

/-- The three cost objects allocated by `createDOCP` (lines 99-106). -/
inductive CostPtr
  | x_reg_cost
  | u_reg_cost
  | x_goal_cost
deriving DecidableEq, Repr

/-- A `crocoddyl::CostItem`: the cost object it points to and its weight. -/
structure CostItem where
  cost : CostPtr
  weight : ℚ
deriving DecidableEq, Repr

/-- The container returned by `CostModelSum::get_costs()`. -/
abbrev CostModelSum := List (CostName × CostItem)

/-- `CostModelSum::addCost`: a key that is already present is not inserted again. -/
def addCost (s : CostModelSum) (name : CostName) (cost : CostPtr) (weight : ℚ) :
    CostModelSum :=
  if (s.lookup name).isSome then s else s ++ [(name, ⟨cost, weight⟩)]

/-- The two cost collections allocated by `createDOCP` (lines 96-97). -/
inductive CostsPtr
  | running_cost_model_sum
  | terminal_cost_model_sum
deriving DecidableEq, Repr

/-- The objects reachable from `problem` after `createDOCP`: the reference held
by each cost object, the two cost collections, the collection each action model
was constructed with, and the initial condition. -/
structure Problem where
  x_reg_xref : Vec
  u_reg_uref : Vec
  x_goal_ref : List ℚ
  running_cost_model_sum : CostModelSum
  terminal_cost_model_sum : CostModelSum
  differential_models_running : List CostsPtr
  differential_terminal_model : CostsPtr
  x0 : Vec
deriving DecidableEq, Repr

/-- `Controller::createDOCP(bool trajectory)`, lines 91-154. -/
def createDOCP (m : Model) (c : Config) (initial_state : Vec) (trajectory : Bool) : Problem :=
  let running_cost_model_sum : CostModelSum := []
  let terminal_cost_model_sum : CostModelSum := []
  let terminal_cost_model_sum :=
    if c.u_reg_weight ≠ 0 then
      addCost terminal_cost_model_sum .u_reg .u_reg_cost c.u_reg_weight
    else terminal_cost_model_sum
  let terminal_cost_model_sum :=
    if c.x_reg_weight ≠ 0 then
      addCost terminal_cost_model_sum .x_reg .x_reg_cost c.x_reg_weight
    else terminal_cost_model_sum
  let running_cost_model_sum :=
    if trajectory then addCost running_cost_model_sum .x_goal .x_goal_cost c.trajectory_node_weight
    else addCost running_cost_model_sum .x_goal .x_goal_cost c.running_model_goal_weight
  let terminal_cost_model_sum :=
    if trajectory then
      addCost terminal_cost_model_sum .x_goal .x_goal_cost c.trajectory_terminal_weight
    else addCost terminal_cost_model_sum .x_goal .x_goal_cost c.terminal_model_goal_weight
  let nodes : Int := if trajectory then c.T_ROUTE else c.T_MPC
  { x_reg_xref := m.zero
    u_reg_uref := List.replicate m.nu 0
    x_goal_ref := [0, 0, 0, 0]
    running_cost_model_sum := running_cost_model_sum
    terminal_cost_model_sum := terminal_cost_model_sum
    differential_models_running := List.replicate (nodes - 1).toNat .running_cost_model_sum
    differential_terminal_model := .terminal_cost_model_sum
    x0 := initial_state }

/-- A node of the shooting problem: `differential_models_running[i]` or
`differential_terminal_model`. -/
inductive Node
  | running (i : Int)
  | terminal
deriving DecidableEq, Repr

/-- Dereference a pointer to a cost collection. -/
def Problem.sum (p : Problem) : CostsPtr → CostModelSum
  | .running_cost_model_sum => p.running_cost_model_sum
  | .terminal_cost_model_sum => p.terminal_cost_model_sum

/-- The pointer `node->get_costs()`. -/
def Problem.costsPtr (p : Problem) : Node → Option CostsPtr
  | .running i => idx p.differential_models_running i
  | .terminal => some p.differential_terminal_model

/-- The container `node->get_costs()->get_costs()`. -/
def Problem.get_costs (p : Problem) (n : Node) : Option CostModelSum :=
  (p.costsPtr n).map p.sum

/-- The lookup `cost_model_sum.find(name)->second`, then the pointer cast of its
`cost` to the class that owns the expected reference. -/
def findCost (s : CostModelSum) (name : CostName) (expected : CostPtr) : Option CostItem :=
  match s.lookup name with
  | some item => if item.cost = expected then some item else none
  | none => none

/-- Modelled from the spec: `CostModelDoublePendulum::setReference` (the class is
declared outside `Controller.cpp`): the goal cost keeps the values it was last
given. Here after the lookup of "x_goal" in the node's collection and the
pointer cast that precede the call in `createTrajectory` (lines 251-252 and
256-257). -/
def Problem.setReference (p : Problem) (n : Node) (goal : List ℚ) : Option Problem := do
  let cost_model_sum ← p.get_costs n
  let _ ← findCost cost_model_sum .x_goal .x_goal_cost
  some { p with x_goal_ref := goal }

/-! ## The controller object and `createTrajectory` -/

/-- The data members of `Controller` that these functions read and write. -/
structure Controller where
  initial_state : Vec
  trajectory_xs : List Vec
  trajectory_us : List Vec
  mpc_warmStart_xs : List Vec
  mpc_warmStart_us : List Vec
deriving DecidableEq, Repr

/-- The constructor `Controller::Controller`, lines 13-17, after `loadModel` has
allocated `initial_state`. -/
def Controller.Controller (m : Model) (c : Config) (initial_state : Vec) : Controller :=
  { initial_state := initial_state
    trajectory_xs := List.replicate c.T_ROUTE.toNat m.zero
    trajectory_us := List.replicate c.T_ROUTE.toNat m.zero
    mpc_warmStart_xs := List.replicate c.T_MPC.toNat m.zero
    mpc_warmStart_us := List.replicate c.T_MPC.toNat (List.replicate m.nu 0) }

/-- What `createTrajectory` reads from outside: the four encoder estimates and
the sequences the solver holds after `solve`. -/
structure PlannerInput where
  pos0 : ℚ
  pos1 : ℚ
  vel0 : ℚ
  vel1 : ℚ
  xs : List Vec
  us : List Vec
deriving DecidableEq, Repr

/-- The four coefficients `x[0], x[1], x[2], x[3]` passed to `setReference`. -/
def coeffs4 (x : Vec) : Option (List ℚ) := do
  let a ← coeff x 0
  let b ← coeff x 1
  let c ← coeff x 2
  let d ← coeff x 3
  some [a, b, c, d]

/-- `Controller::createTrajectory`, lines 235-258. -/
def createTrajectory (c : Config) (k : Controller) (p : Problem) (i : PlannerInput) :
    Option (Controller × Problem) := do
  let initial_state ←
    if k.initial_state.length = 4 then some [i.pos0, i.pos1, i.vel0, i.vel1] else none
  let p := { p with x0 := initial_state }
  let k := { k with initial_state := initial_state, trajectory_xs := i.xs, trajectory_us := i.us }
  let p ← (List.range (c.T_MPC - 1).toNat).foldlM
    (fun (p : Problem) (node_index : Nat) => do
      let x ← idx k.trajectory_xs (c.T_MPC - 1)
      let r ← coeffs4 x
      p.setReference (.running node_index) r) p
  let x ← idx k.trajectory_xs (c.T_MPC - 1)
  let r ← coeffs4 x
  let p ← p.setReference .terminal r
  some (k, p)

/-! ## `controlLoop` -/

/-- The two problems have the same cost collections and the same nodes: they
differ at most in the references held by the cost objects and in `x0`. -/
def SameShape (p q : Problem) : Prop :=
  p.running_cost_model_sum = q.running_cost_model_sum ∧
  p.terminal_cost_model_sum = q.terminal_cost_model_sum ∧
  p.differential_models_running = q.differential_models_running ∧
  p.differential_terminal_model = q.differential_terminal_model

/-- The goal reference seen from node `n`: the reference of the goal cost found
under "x_goal" in the node's collection. -/
def Problem.goal (p : Problem) (n : Node) : Option (List ℚ) := do
  let cost_model_sum ← p.get_costs n
  let _ ← findCost cost_model_sum .x_goal .x_goal_cost
  some p.x_goal_ref

/-- A model with four-coefficient states and one-coefficient controls. -/
def exModel : Model := ⟨[0, 0, 0, 0], 2, 1⟩

/-- A configuration with a Long Trajectory of 6 states and a window of 3, an
iteration budget of 2, and pairwise different goal weights. -/
def exConfig : Config :=
  { dt := 1 / 250
    x_reg_weight := 1
    u_reg_weight := 1
    trajectory_node_weight := 2
    trajectory_terminal_weight := 7
    running_model_goal_weight := 3
    terminal_model_goal_weight := 5
    T_ROUTE := 6
    T_MPC := 3
    control_loop_iterations := 2 }

/-- Encoder readings and a solver output of 6 states and 5 controls for
`createTrajectory`. -/
def exPlanner : PlannerInput :=
  { pos0 := 1
    pos1 := 2
    vel0 := 3
    vel1 := 4
    xs := [[10, 0, 0, 0], [11, 1, 0, 0], [12, 2, 0, 0], [13, 3, 0, 0], [14, 4, 0, 0],
      [15, 5, 0, 0]]
    us := [[20], [21], [22], [23], [24]] }

/-- The horizons of the scenario: a Long Trajectory of 100 states and a window
of 10, without an iteration budget. -/
def exConfig100 : Config :=
  { exConfig with T_ROUTE := 100, T_MPC := 10, control_loop_iterations := 0 }

/-- Encoder readings and a solver output of 100 states and 99 controls. -/
def exPlanner100 : PlannerInput :=
  { pos0 := 1
    pos1 := 2
    vel0 := 3
    vel1 := 4
    xs := List.replicate 100 [1, 0, 0, 0]
    us := List.replicate 99 [1] }

/-- The controller of the scenario after the constructor and `createTrajectory`
on `exPlanner100`. -/
def exController100 : Controller :=
  { Controller.Controller exModel exConfig100 [0, 0, 0, 0] with
    initial_state := [1, 2, 3, 4]
    trajectory_xs := exPlanner100.xs
    trajectory_us := exPlanner100.us }

/-- The short-horizon problem of the scenario after `createTrajectory` on
`exPlanner100`. -/
def exShortProblem100 : Problem :=
  { createDOCP exModel exConfig100 [0, 0, 0, 0] false with
    x0 := [1, 2, 3, 4]
    x_goal_ref := [1, 0, 0, 0] }

/-! ## Lemmas on the embedding -/

theorem idx_natCast {α : Type} (v : List α) (k : Nat) : idx v (k : Int) = v[k]? := by
  simp [idx]

theorem get_costs_shape {p q : Problem} (h : SameShape p q) (n : Node) :
    p.get_costs n = q.get_costs n := by
  obtain ⟨h1, h2, h3, h4⟩ := h
  have hsum : p.sum = q.sum := by
    funext ptr
    cases ptr <;> simp [Problem.sum, h1, h2]
  cases n with
  | running i => simp [Problem.get_costs, Problem.costsPtr, hsum, h3]
  | terminal => simp [Problem.get_costs, Problem.costsPtr, hsum, h4]

theorem createDOCP_costsPtr (m : Model) (c : Config) (x : Vec) (trajectory : Bool) (i : Int)
    (h0 : 0 ≤ i) (h1 : i < (if trajectory then c.T_ROUTE else c.T_MPC) - 1) :
    (createDOCP m c x trajectory).costsPtr (.running i) =
      some CostsPtr.running_cost_model_sum := by
  simp only [Problem.costsPtr, createDOCP, idx, if_pos h0]
  have : i.toNat < ((if trajectory = true then c.T_ROUTE else c.T_MPC) - 1).toNat := by omega
  rw [List.getElem?_replicate, if_pos this]

theorem createDOCP_running_goal (m : Model) (c : Config) (x : Vec) (trajectory : Bool) :
    ∃ item, findCost (createDOCP m c x trajectory).running_cost_model_sum .x_goal .x_goal_cost =
      some item := by
  cases trajectory <;> simp [createDOCP, addCost, findCost, List.lookup]

theorem createDOCP_terminal_goal (m : Model) (c : Config) (x : Vec) (trajectory : Bool) :
    ∃ item, findCost (createDOCP m c x trajectory).terminal_cost_model_sum .x_goal .x_goal_cost =
      some item := by
  have e1 : (CostName.x_goal == CostName.x_reg) = false := by decide
  have e2 : (CostName.x_goal == CostName.u_reg) = false := by decide
  have e3 : (CostName.x_reg == CostName.u_reg) = false := by decide
  by_cases hu : c.u_reg_weight = 0 <;> by_cases hx : c.x_reg_weight = 0 <;>
    cases trajectory <;> simp [createDOCP, addCost, findCost, List.lookup, hu, hx, e1, e2, e3]

theorem setReference_running (p : Problem) (cnt : Nat)
    (hd : p.differential_models_running = List.replicate cnt .running_cost_model_sum)
    (item : CostItem)
    (hf : findCost p.running_cost_model_sum .x_goal .x_goal_cost = some item)
    (i : Nat) (hi : i < cnt) (r : List ℚ) :
    p.setReference (.running (i : Int)) r = some { p with x_goal_ref := r } := by
  have hc : p.get_costs (.running (i : Int)) = some p.running_cost_model_sum := by
    simp [Problem.get_costs, Problem.costsPtr, idx_natCast, hd, List.getElem?_replicate, hi,
      Problem.sum]
  simp only [Problem.setReference, hc, hf, Option.bind_eq_bind, Option.some_bind]

theorem foldl_setReference (xs : List Vec) (N : Int) (x : Vec) (r : List ℚ)
    (hx : idx xs (N - 1) = some x) (hr : coeffs4 x = some r) (cnt : Nat) (item : CostItem) :
    ∀ (n : Nat), n ≤ cnt → ∀ (p : Problem),
      p.differential_models_running = List.replicate cnt .running_cost_model_sum →
      findCost p.running_cost_model_sum .x_goal .x_goal_cost = some item →
      (List.range n).foldlM
        (fun (p : Problem) (node_index : Nat) => do
          let x ← idx xs (N - 1)
          let r ← coeffs4 x
          p.setReference (.running node_index) r) p =
        some (if n = 0 then p else { p with x_goal_ref := r }) := by
  intro n
  induction n with
  | zero => intro _ p _ _; rfl
  | succ n ih =>
    intro hn p hd hf
    rw [List.range_succ, List.foldlM_append, ih (by omega) p hd hf]
    simp only [Option.bind_eq_bind, Option.some_bind, List.foldlM_cons, List.foldlM_nil, hx, hr,
      if_neg (Nat.succ_ne_zero n)]
    by_cases h0 : n = 0
    · rw [if_pos h0, setReference_running p cnt hd item hf n (by omega) r]
      rfl
    · rw [if_neg h0,
        setReference_running { p with x_goal_ref := r } cnt hd item hf n (by omega) r]
      rfl

theorem createDOCP_running_regs (m : Model) (c : Config) (x : Vec) (trajectory : Bool) :
    (createDOCP m c x trajectory).running_cost_model_sum.lookup .x_reg = none ∧
    (createDOCP m c x trajectory).running_cost_model_sum.lookup .u_reg = none := by
  have e1 : (CostName.x_reg == CostName.x_goal) = false := by decide
  have e2 : (CostName.u_reg == CostName.x_goal) = false := by decide
  cases trajectory <;> simp [createDOCP, addCost, List.lookup, e1, e2]

theorem createDOCP_terminal_regs (m : Model) (c : Config) (x : Vec) (trajectory : Bool) :
    (((createDOCP m c x trajectory).terminal_cost_model_sum.lookup .x_reg).isSome = true ↔
      c.x_reg_weight ≠ 0) ∧
    (((createDOCP m c x trajectory).terminal_cost_model_sum.lookup .u_reg).isSome = true ↔
      c.u_reg_weight ≠ 0) := by
  have e1 : (CostName.x_reg == CostName.x_goal) = false := by decide
  have e2 : (CostName.u_reg == CostName.x_goal) = false := by decide
  have e3 : (CostName.x_reg == CostName.u_reg) = false := by decide
  have e4 : (CostName.u_reg == CostName.x_reg) = false := by decide
  have e5 : (CostName.x_goal == CostName.x_reg) = false := by decide
  have e6 : (CostName.x_goal == CostName.u_reg) = false := by decide
  by_cases hu : c.u_reg_weight = 0 <;> by_cases hx : c.x_reg_weight = 0 <;>
    cases trajectory <;>
    simp [createDOCP, addCost, List.lookup, hu, hx, e1, e2, e3, e4, e5, e6]

theorem createDOCP_goal_lookup (m : Model) (c : Config) (x : Vec) (trajectory : Bool) :
    ((createDOCP m c x trajectory).running_cost_model_sum.lookup .x_goal).isSome = true ∧
    ((createDOCP m c x trajectory).terminal_cost_model_sum.lookup .x_goal).isSome = true := by
  have e1 : (CostName.x_goal == CostName.x_reg) = false := by decide
  have e2 : (CostName.x_goal == CostName.u_reg) = false := by decide
  have e3 : (CostName.x_reg == CostName.u_reg) = false := by decide
  by_cases hu : c.u_reg_weight = 0 <;> by_cases hx : c.x_reg_weight = 0 <;>
    cases trajectory <;> simp [createDOCP, addCost, List.lookup, hu, hx, e1, e2, e3]

theorem createTrajectory_createDOCP (m : Model) (c : Config) (k : Controller) (x0 : Vec)
    (trajectory : Bool) (plan : PlannerInput) (a b cc d : ℚ) (rest : Vec)
    (hk : k.initial_state.length = 4) (hR : c.T_MPC ≤ c.T_ROUTE)
    (hx : idx plan.xs (c.T_MPC - 1) = some (a :: b :: cc :: d :: rest)) :
    createTrajectory c k (createDOCP m c x0 trajectory) plan =
      some ({ k with initial_state := [plan.pos0, plan.pos1, plan.vel0, plan.vel1],
                     trajectory_xs := plan.xs, trajectory_us := plan.us },
            { createDOCP m c x0 trajectory with
              x_goal_ref := [a, b, cc, d],
              x0 := [plan.pos0, plan.pos1, plan.vel0, plan.vel1] }) := by
  have hr : coeffs4 (a :: b :: cc :: d :: rest) = some [a, b, cc, d] := by
    simp [coeffs4, coeff]
  obtain ⟨item, hitem⟩ := createDOCP_running_goal m c x0 trajectory
  obtain ⟨titem, htitem⟩ := createDOCP_terminal_goal m c x0 trajectory
  have hle : (c.T_MPC - 1).toNat ≤ ((if trajectory then c.T_ROUTE else c.T_MPC) - 1).toNat := by
    cases trajectory
    · simp
    · simp only [if_true]; omega
  have hfold := foldl_setReference plan.xs c.T_MPC _ _ hx hr
    ((if trajectory then c.T_ROUTE else c.T_MPC) - 1).toNat item (c.T_MPC - 1).toNat hle
    { createDOCP m c x0 trajectory with x0 := [plan.pos0, plan.pos1, plan.vel0, plan.vel1] }
    rfl hitem
  have hshape : ∀ (xr ur : Vec) (g : List ℚ) (y : Vec),
      SameShape (createDOCP m c x0 trajectory)
        { createDOCP m c x0 trajectory with
          x_reg_xref := xr, u_reg_uref := ur, x_goal_ref := g, x0 := y } :=
    fun _ _ _ _ => ⟨rfl, rfl, rfl, rfl⟩
  have hterm : ∀ (xr ur : Vec) (g : List ℚ) (y : Vec),
      ({ createDOCP m c x0 trajectory with
          x_reg_xref := xr, u_reg_uref := ur, x_goal_ref := g, x0 := y } : Problem).setReference
        .terminal [a, b, cc, d] =
      some { createDOCP m c x0 trajectory with
          x_reg_xref := xr, u_reg_uref := ur, x_goal_ref := [a, b, cc, d], x0 := y } := by
    intro xr ur g y
    have hc : ({ createDOCP m c x0 trajectory with
          x_reg_xref := xr, u_reg_uref := ur, x_goal_ref := g, x0 := y } : Problem).get_costs
        .terminal = some (createDOCP m c x0 trajectory).terminal_cost_model_sum := by
      rw [← get_costs_shape (hshape xr ur g y)]
      rfl
    simp only [Problem.setReference, hc, htitem, Option.bind_eq_bind, Option.some_bind]
  simp only [Option.bind_eq_bind] at hfold
  simp only [createTrajectory, if_pos hk, Option.bind_eq_bind, Option.some_bind]
  rw [hfold]
  simp only [Option.some_bind, hx, hr]
  by_cases h0 : (c.T_MPC - 1).toNat = 0
  · rw [if_pos h0]
    exact congrArg (fun o => Option.bind o _) (hterm _ _ _ _)
  · rw [if_neg h0]
    exact congrArg (fun o => Option.bind o _) (hterm _ _ _ _)

theorem exProgram100 :
    createTrajectory exConfig100 (Controller.Controller exModel exConfig100 [0, 0, 0, 0])
      (createDOCP exModel exConfig100 [0, 0, 0, 0] false) exPlanner100 =
    some (exController100, exShortProblem100) :=
  createTrajectory_createDOCP exModel exConfig100
    (Controller.Controller exModel exConfig100 [0, 0, 0, 0]) [0, 0, 0, 0] false exPlanner100
    1 0 0 0 [] rfl (by decide) (by decide)

/-! ## The claims -/

/-- C9, counterexample: with a Long Trajectory of 6 states and a window of 3,
`createTrajectory` on the short-horizon problem leaves the terminal goal
reference, and that of running node 0, at the planned state of index 2
(`T_MPC - 1`), which is neither the final state (index 5) nor the first of the
last three states (index 3). -/
theorem C9_counterexample :
    ((createTrajectory exConfig (Controller.Controller exModel exConfig [0, 0, 0, 0])
        (createDOCP exModel exConfig [0, 0, 0, 0] false) exPlanner).bind
      fun r => r.2.goal .terminal) = some [12, 2, 0, 0] ∧
    ((createTrajectory exConfig (Controller.Controller exModel exConfig [0, 0, 0, 0])
        (createDOCP exModel exConfig [0, 0, 0, 0] false) exPlanner).bind
      fun r => r.2.goal (.running 0)) = some [12, 2, 0, 0] ∧
    idx exPlanner.xs (exConfig.T_ROUTE - 1) = some [15, 5, 0, 0] ∧
    idx exPlanner.xs (exConfig.T_ROUTE - exConfig.T_MPC) = some [13, 3, 0, 0] := by
  decide

/-- C9, amended: after `createTrajectory` has stored the Long Trajectory, the goal
reference of the problem it runs on (the long-horizon or the short-horizon
problem of `createDOCP`) holds the first four coefficients of the planned state
of index `T_MPC - 1`; this one reference is the goal reference of the running
nodes `0 .. T_MPC - 2` and of the terminal node alike. The state and control
regularisation targets are left as `createDOCP` set them. -/
theorem C9_trajectory_references (m : Model) (c : Config) (k : Controller) (x0 : Vec)
    (trajectory : Bool) (plan : PlannerInput) (a b cc d : ℚ) (rest : Vec)
    (hk : k.initial_state.length = 4) (hR : c.T_MPC ≤ c.T_ROUTE)
    (hx : idx plan.xs (c.T_MPC - 1) = some (a :: b :: cc :: d :: rest)) :
    ∃ k2 p2, createTrajectory c k (createDOCP m c x0 trajectory) plan = some (k2, p2) ∧
      k2.trajectory_xs = plan.xs ∧ k2.trajectory_us = plan.us ∧
      p2.x_goal_ref = [a, b, cc, d] ∧ p2.x_reg_xref = m.zero ∧
      p2.u_reg_uref = List.replicate m.nu 0 ∧
      (∀ i : Int, 0 ≤ i → i < c.T_MPC - 1 → p2.goal (.running i) = some [a, b, cc, d]) ∧
      p2.goal .terminal = some [a, b, cc, d] := by
  have hr : coeffs4 (a :: b :: cc :: d :: rest) = some [a, b, cc, d] := by
    simp [coeffs4, coeff]
  obtain ⟨item, hitem⟩ := createDOCP_running_goal m c x0 trajectory
  obtain ⟨titem, htitem⟩ := createDOCP_terminal_goal m c x0 trajectory
  have hle : (c.T_MPC - 1).toNat ≤ ((if trajectory then c.T_ROUTE else c.T_MPC) - 1).toNat := by
    cases trajectory
    · simp
    · simp only [if_true]; omega
  have hfold := foldl_setReference plan.xs c.T_MPC _ _ hx hr
    ((if trajectory then c.T_ROUTE else c.T_MPC) - 1).toNat item (c.T_MPC - 1).toNat hle
    { createDOCP m c x0 trajectory with x0 := [plan.pos0, plan.pos1, plan.vel0, plan.vel1] }
    rfl hitem
  have hshape : ∀ (xr ur : Vec) (g : List ℚ) (y : Vec),
      SameShape (createDOCP m c x0 trajectory)
        { createDOCP m c x0 trajectory with
          x_reg_xref := xr, u_reg_uref := ur, x_goal_ref := g, x0 := y } :=
    fun _ _ _ _ => ⟨rfl, rfl, rfl, rfl⟩
  have hterm : ∀ (xr ur : Vec) (g : List ℚ) (y : Vec),
      ({ createDOCP m c x0 trajectory with
          x_reg_xref := xr, u_reg_uref := ur, x_goal_ref := g, x0 := y } : Problem).setReference
        .terminal [a, b, cc, d] =
      some { createDOCP m c x0 trajectory with
          x_reg_xref := xr, u_reg_uref := ur, x_goal_ref := [a, b, cc, d], x0 := y } := by
    intro xr ur g y
    have hc : ({ createDOCP m c x0 trajectory with
          x_reg_xref := xr, u_reg_uref := ur, x_goal_ref := g, x0 := y } : Problem).get_costs
        .terminal = some (createDOCP m c x0 trajectory).terminal_cost_model_sum := by
      rw [← get_costs_shape (hshape xr ur g y)]
      rfl
    simp only [Problem.setReference, hc, htitem, Option.bind_eq_bind, Option.some_bind]
  have hgoalT : ∀ p : Problem, SameShape (createDOCP m c x0 trajectory) p →
      p.goal .terminal = some p.x_goal_ref := by
    intro p hp
    have hc : p.get_costs .terminal =
        some (createDOCP m c x0 trajectory).terminal_cost_model_sum := by
      rw [← get_costs_shape hp]
      rfl
    simp only [Problem.goal, hc, htitem, Option.bind_eq_bind, Option.some_bind]
  have hgoalR : ∀ p : Problem, SameShape (createDOCP m c x0 trajectory) p →
      ∀ i : Int, 0 ≤ i → i < c.T_MPC - 1 → p.goal (.running i) = some p.x_goal_ref := by
    intro p hp i hi0 hi1
    have hc : p.get_costs (.running i) =
        some (createDOCP m c x0 trajectory).running_cost_model_sum := by
      rw [← get_costs_shape hp]
      have hptr := createDOCP_costsPtr m c x0 trajectory i hi0 (by
        cases trajectory
        · simpa using hi1
        · simp only [if_true]; omega)
      simp only [Problem.get_costs, hptr, Option.map_some']
      rfl
    simp only [Problem.goal, hc, hitem, Option.bind_eq_bind, Option.some_bind]
  have hres : createTrajectory c k (createDOCP m c x0 trajectory) plan =
      some ({ k with initial_state := [plan.pos0, plan.pos1, plan.vel0, plan.vel1],
                     trajectory_xs := plan.xs, trajectory_us := plan.us },
            { createDOCP m c x0 trajectory with
              x_goal_ref := [a, b, cc, d],
              x0 := [plan.pos0, plan.pos1, plan.vel0, plan.vel1] }) := by
    simp only [Option.bind_eq_bind] at hfold
    simp only [createTrajectory, if_pos hk, Option.bind_eq_bind, Option.some_bind]
    rw [hfold]
    simp only [Option.some_bind, hx, hr]
    by_cases h0 : (c.T_MPC - 1).toNat = 0
    · rw [if_pos h0]
      exact congrArg (fun o => Option.bind o _) (hterm _ _ _ _)
    · rw [if_neg h0]
      exact congrArg (fun o => Option.bind o _) (hterm _ _ _ _)
  refine ⟨_, _, hres, rfl, rfl, rfl, rfl, rfl, ?_, ?_⟩
  · intro i hi0 hi1
    exact hgoalR _ (hshape _ _ _ _) i hi0 hi1
  · exact hgoalT _ (hshape _ _ _ _)

/-- C9, witness: `createTrajectory` on the short-horizon problem of the example
with the plan `exPlanner`. -/
theorem C9_trajectory_references_witness :
    ∃ k2 p2, createTrajectory exConfig (Controller.Controller exModel exConfig [0, 0, 0, 0])
        (createDOCP exModel exConfig [0, 0, 0, 0] false) exPlanner = some (k2, p2) ∧
      k2.trajectory_xs = exPlanner.xs ∧ k2.trajectory_us = exPlanner.us ∧
      p2.x_goal_ref = [12, 2, 0, 0] ∧ p2.x_reg_xref = exModel.zero ∧
      p2.u_reg_uref = List.replicate exModel.nu 0 ∧
      (∀ i : Int, 0 ≤ i → i < exConfig.T_MPC - 1 →
        p2.goal (.running i) = some [12, 2, 0, 0]) ∧
      p2.goal .terminal = some [12, 2, 0, 0] :=
  C9_trajectory_references exModel exConfig (Controller.Controller exModel exConfig [0, 0, 0, 0])
    [0, 0, 0, 0] false exPlanner 12 2 0 0 [] (by decide) (by decide) (by decide)

end DoublePendulumMPC
